import Mathlib

/-!
Verification of the morningstar-rs Prostar MPPT register codec
(`src/prostar_mppt.rs`).

Shallow embedding conventions:
* 16-bit device registers are `Nat` values (< 2^16 where it matters).
* Rust `f32` values are modelled by `RFloat`: either NaN, a signed
  infinity, or a finite rational.  Quantity wrappers (`uom`) are
  modelled by the numeric value of the quantity in the unit used by the
  register codec for that field (volt, ampere, ohm, second, minute,
  day, degree Celsius); unit conversion inside the quantity layer is
  treated as exact, per spec section 4.1.
* IEEE 754 binary16 (`half::f16`) is modelled bit-exactly: decoding a
  16-bit pattern (`decodeF16`) and encoding with round-to-nearest,
  ties-to-even (`encodeF16`).
* The modbus transport is modelled by passing the register block a read
  returns as an explicit argument, and recording the transport
  operations a call performs as a trace (`TOp`).
-/

/-- `2 ^ e` over ℚ for an integer exponent, kept executable. -/
def pow2 (e : ℤ) : ℚ :=
  if 0 ≤ e then ((2 : ℚ) ^ e.toNat) else ((2 : ℚ) ^ (-e).toNat)⁻¹

/-- Model of a Rust `f32` value: NaN, a signed infinity, or a finite
rational. -/
inductive RFloat where
  | nan : RFloat
  | inf (neg : Bool) : RFloat
  | fin (q : ℚ) : RFloat
deriving DecidableEq

/-- `is_nan` on the `f32` model. -/
def RFloat.isNaN : RFloat → Bool
  | .nan => true
  | _ => false

/-- Exponent field of a binary16 bit pattern: `(u >> 10) & 0x1F`. -/
def f16Exp (u : ℕ) : ℕ := u / 1024 % 32

/-- Mantissa field of a binary16 bit pattern: `u & 0x3FF`. -/
def f16Man (u : ℕ) : ℕ := u % 1024

/-- Sign bit of a binary16 bit pattern. -/
def f16Neg (u : ℕ) : Bool := decide (u / 32768 % 2 = 1)

/-- Magnitude of a finite binary16 bit pattern: subnormals are
`m * 2^-24`, normals are `(1024 + m) * 2^(E - 25)`. -/
def f16Val (u : ℕ) : ℚ :=
  if f16Exp u = 0 then (f16Man u : ℚ) * pow2 (-24)
  else (1024 + f16Man u : ℚ) * pow2 ((f16Exp u : ℤ) - 25)

/-- `half::f16::to_f32` (every binary16 value is exactly representable
in `f32`, so widening is the identity on the value). -/
def decodeF16 (u : ℕ) : RFloat :=
  if f16Exp u = 31 then (if f16Man u = 0 then .inf (f16Neg u) else .nan)
  else .fin (if f16Neg u then -(f16Val u) else f16Val u)

/-- `fn gf32(u: u16) -> f32` from the source: decode binary16 and map a
NaN result to `0.0`. -/
def gf32 (u : ℕ) : RFloat :=
  match decodeF16 u with
  | .nan => .fin 0
  | x => x

/-- Round a rational to the nearest integer, ties to even. -/
def rne (q : ℚ) : ℤ :=
  if q - ⌊q⌋ < 1/2 then ⌊q⌋
  else if q - ⌊q⌋ > 1/2 then ⌊q⌋ + 1
  else if ⌊q⌋ % 2 = 0 then ⌊q⌋ else ⌊q⌋ + 1

/-- Find the binade: the smallest `e ≥ start` with `q < 2^(e+1)`,
searching upward with fuel. -/
def expLoop : ℕ → ℤ → ℚ → ℤ
  | 0, e, _ => e
  | n + 1, e, q => if q < pow2 (e + 1) then e else expLoop n (e + 1) q

/-- Encode a nonnegative rational magnitude as a binary16 bit pattern
with round-to-nearest, ties-to-even, overflowing to infinity
(`0x7C00`), per `half::f16::from_f32`. -/
def encodeCore (q : ℚ) : ℕ :=
  if q ≤ 0 then 0
  else
    let e := expLoop 30 (-14) q
    if 16 ≤ e then 0x7C00
    else
      let s := rne (q / pow2 (e - 10))
      if s < 1024 then s.toNat
      else if s < 2048 then (e + 15).toNat * 1024 + (s.toNat - 1024)
      else if e = 15 then 0x7C00
      else (e + 16).toNat * 1024

/-- Encode a rational as a binary16 bit pattern, with the sign bit. -/
def encodeF16 (q : ℚ) : ℕ :=
  if q < 0 then 32768 + encodeCore (-q) else encodeCore q

/-- `half::f16::from_f32` on the full `f32` model (NaN encodes to a
quiet-NaN pattern, infinities to the infinity patterns). -/
def encF32toBits : RFloat → ℕ
  | .fin q => encodeF16 q
  | .inf neg => if neg then 0xFC00 else 0x7C00
  | .nan => 0x7E00

/-- Truncation of a rational toward zero (Rust float-to-int cast). -/
def truncQ (q : ℚ) : ℤ := if 0 ≤ q then ⌊q⌋ else -⌊-q⌋

/-- Rust `as` cast from `f32` to an integer range: truncate toward
zero, saturate at the bounds, NaN casts to 0. -/
def castSat (lo hi : ℤ) : RFloat → ℤ
  | .nan => 0
  | .inf neg => if neg then lo else hi
  | .fin q => max lo (min hi (truncQ q))

/-- `fn to_v`: volts to binary16 bits (volt is the base unit, so no
unit conversion occurs). -/
def to_v (x : RFloat) : ℕ := encF32toBits x

/-- `fn to_a`: amperes to binary16 bits. -/
def to_a (x : RFloat) : ℕ := encF32toBits x

/-- `fn to_om`: ohms to binary16 bits. -/
def to_om (x : RFloat) : ℕ := encF32toBits x

/-- `fn to_sec`: `s.get::<second>() as u16`. -/
def to_sec (x : RFloat) : ℕ := (castSat 0 65535 x).toNat

/-- `fn to_dy`: `d.get::<day>() as u16` (the field is modelled in
days). -/
def to_dy (x : RFloat) : ℕ := (castSat 0 65535 x).toNat

/-- `fn to_mn`: `m.get::<minute>() as u16` (the field is modelled in
minutes). -/
def to_mn (x : RFloat) : ℕ := (castSat 0 65535 x).toNat

/-- `fn to_ic`: `transmute::<i16, u16>(c.get::<degree_celsius>() as i16)`:
cast to `i16` (truncating, saturating), then reinterpret the two's
complement bit pattern as `u16`. -/
def to_ic (x : RFloat) : ℕ := ((castSat (-32768) 32767 x) % 65536).toNat

/-- Signed reinterpretation of a 16-bit pattern as an `i16` value. -/
def i16val (u : ℕ) : ℤ :=
  if u % 65536 < 32768 then (u % 65536 : ℤ) else (u % 65536 : ℤ) - 65536

/-- `fn ic`: `transmute::<u16, i16>(u) as f32`, degrees Celsius. -/
def ic (u : ℕ) : RFloat := .fin (i16val u)

/-- `ChargeState` (source enum; `UnknownState` carries the raw code). -/
inductive ChargeState where
  | UnknownState (code : ℕ) : ChargeState
  | Start | NightCheck | Disconnect | Night | Fault
  | BulkMPPT | Absorption | Float | Equalize | Slave | Fixed
deriving DecidableEq

/-- `impl From<u16> for ChargeState`. -/
def ChargeState.ofU16 (i : ℕ) : ChargeState :=
  match i with
  | 0 => .Start
  | 1 => .NightCheck
  | 2 => .Disconnect
  | 3 => .Night
  | 4 => .Fault
  | 5 => .BulkMPPT
  | 6 => .Absorption
  | 7 => .Float
  | 8 => .Equalize
  | 9 => .Slave
  | 10 => .Fixed
  | i => .UnknownState i

/-- `LoadState` (source enum; `Unknown` carries the raw code). -/
inductive LoadState where
  | Unknown (code : ℕ) : LoadState
  | Start | LVDWarning | LVD | Fault | Disconnect
  | NormalOff | Override | Normal | NotUsed
deriving DecidableEq

/-- `impl From<u16> for LoadState`. -/
def LoadState.ofU16 (i : ℕ) : LoadState :=
  match i with
  | 0 => .Start
  | 1 => .Normal
  | 2 => .LVDWarning
  | 3 => .LVD
  | 4 => .Fault
  | 5 => .Disconnect
  | 6 => .NormalOff
  | 7 => .Override
  | 8 => .NotUsed
  | i => .Unknown i

/-- The sixteen declared `ArrayFaults` bit constants. -/
def arrayFaultsFlags : List ℕ :=
  [0x0001, 0x0002, 0x0004, 0x0008, 0x0010, 0x0020, 0x0040, 0x0080,
   0x0100, 0x0200, 0x0400, 0x0800, 0x1000, 0x2000, 0x4000, 0x8000]

/-- The eight declared `LoadFaults` bit constants. -/
def loadFaultsFlags : List ℕ :=
  [0x0001, 0x0002, 0x0004, 0x0008, 0x0010, 0x0020, 0x0040, 0x0080]

/-- The twenty-seven declared `Alarms` bit constants. -/
def alarmsFlags : List ℕ :=
  [0x00000001, 0x00000002, 0x00000004, 0x00000008, 0x00000010,
   0x00000020, 0x00000040, 0x00000080, 0x00000100, 0x00000200,
   0x00000400, 0x00000800, 0x00001000, 0x00002000, 0x00004000,
   0x00008000, 0x00010000, 0x00020000, 0x00040000, 0x00080000,
   0x00100000, 0x00200000, 0x00400000, 0x00800000, 0x01000000,
   0x02000000, 0x04000000]

/-- Union of a bitflags set's declared bits (`Self::all()`). -/
def flagsUnion (l : List ℕ) : ℕ := l.foldr (· ||| ·) 0

/-- `ArrayFaults::from_bits_truncate` followed by re-extracting the raw
bits: bitflags keeps exactly the declared bits. -/
def arrayFaultsFromBitsTruncate (raw : ℕ) : ℕ := raw &&& flagsUnion arrayFaultsFlags

/-- `LoadFaults::from_bits_truncate` followed by re-extracting the raw
bits. -/
def loadFaultsFromBitsTruncate (raw : ℕ) : ℕ := raw &&& flagsUnion loadFaultsFlags

/-- `Alarms::from_bits_truncate` followed by re-extracting the raw
bits. -/
def alarmsFromBitsTruncate (raw : ℕ) : ℕ := raw &&& flagsUnion alarmsFlags

/-- `const SETTINGS_BASE: usize = 0xE000`. -/
def SETTINGS_BASE : ℕ := 0xE000

/-- `const SETTINGS_END: usize = 0xE038`. -/
def SETTINGS_END : ℕ := 0xE038

/-- The `Settings` aggregate.  `f32`-backed quantity fields are
`RFloat` values in the codec unit of the field (volts, amperes, ohms,
seconds, days, minutes, degrees Celsius); `modbus_id`/`meterbus_id`
are `u8` values. -/
structure Settings where
  regulation_voltage : RFloat
  float_voltage : RFloat
  time_before_float : RFloat
  time_before_float_low_battery : RFloat
  float_low_battery_voltage_trigger : RFloat
  float_cancel_voltage : RFloat
  exit_float_time : RFloat
  equalize_voltage : RFloat
  days_between_equalize_cycles : RFloat
  equalize_time_limit_above_regulation_voltage : RFloat
  equalize_time_limit_at_regulation_voltage : RFloat
  alarm_on_setting_change : Bool
  reference_charge_voltage_limit : RFloat
  battery_charge_current_limit : RFloat
  temperature_compensation_coefficent : RFloat
  high_voltage_disconnect : RFloat
  high_voltage_reconnect : RFloat
  maximum_charge_voltage_reference : RFloat
  max_battery_temp_compensation_limit : RFloat
  min_battery_temp_compensation_limit : RFloat
  load_low_voltage_disconnect : RFloat
  load_low_voltage_reconnect : RFloat
  load_high_voltage_disconnect : RFloat
  load_high_voltage_reconnect : RFloat
  lvd_load_current_compensation : RFloat
  lvd_warning_timeout : RFloat
  led_green_to_green_and_yellow_limit : RFloat
  led_green_and_yellow_to_yellow_limit : RFloat
  led_yellow_to_yellow_and_red_limit : RFloat
  led_yellow_and_red_to_red_flashing_limit : RFloat
  modbus_id : ℕ
  meterbus_id : ℕ
  mppt_fixed_vmp : RFloat
  mppt_fixed_vmp_percent : RFloat
  charge_current_limit : RFloat
deriving DecidableEq

/-- `Connection::read_settings` after a successful transport read: the
length check against `(SETTINGS_END - SETTINGS_BASE) + 1` and the
per-field decode at the fixed offsets. -/
def decodeSettings (raw : List ℕ) : Option Settings :=
  if raw.length = (SETTINGS_END - SETTINGS_BASE) + 1 then
    some
      { regulation_voltage := gf32 (raw.getD (0xE000 - SETTINGS_BASE) 0)
        float_voltage := gf32 (raw.getD (0xE001 - SETTINGS_BASE) 0)
        time_before_float := .fin (raw.getD (0xE002 - SETTINGS_BASE) 0 : ℚ)
        time_before_float_low_battery := .fin (raw.getD (0xE003 - SETTINGS_BASE) 0 : ℚ)
        float_low_battery_voltage_trigger := gf32 (raw.getD (0xE004 - SETTINGS_BASE) 0)
        float_cancel_voltage := gf32 (raw.getD (0xE005 - SETTINGS_BASE) 0)
        exit_float_time := .fin (raw.getD (0xE006 - SETTINGS_BASE) 0 : ℚ)
        equalize_voltage := gf32 (raw.getD (0xE007 - SETTINGS_BASE) 0)
        days_between_equalize_cycles := .fin (raw.getD (0xE008 - SETTINGS_BASE) 0 : ℚ)
        equalize_time_limit_above_regulation_voltage :=
          .fin (raw.getD (0xE009 - SETTINGS_BASE) 0 : ℚ)
        equalize_time_limit_at_regulation_voltage :=
          .fin (raw.getD (0xE00A - SETTINGS_BASE) 0 : ℚ)
        alarm_on_setting_change := decide (raw.getD (0xE00D - SETTINGS_BASE) 0 = 1)
        reference_charge_voltage_limit := gf32 (raw.getD (0xE010 - SETTINGS_BASE) 0)
        battery_charge_current_limit := gf32 (raw.getD (0xE013 - SETTINGS_BASE) 0)
        temperature_compensation_coefficent := gf32 (raw.getD (0xE01A - SETTINGS_BASE) 0)
        high_voltage_disconnect := gf32 (raw.getD (0xE01B - SETTINGS_BASE) 0)
        high_voltage_reconnect := gf32 (raw.getD (0xE01C - SETTINGS_BASE) 0)
        maximum_charge_voltage_reference := gf32 (raw.getD (0xE01D - SETTINGS_BASE) 0)
        max_battery_temp_compensation_limit := ic (raw.getD (0xE01E - SETTINGS_BASE) 0)
        min_battery_temp_compensation_limit := ic (raw.getD (0xE01F - SETTINGS_BASE) 0)
        load_low_voltage_disconnect := gf32 (raw.getD (0xE022 - SETTINGS_BASE) 0)
        load_low_voltage_reconnect := gf32 (raw.getD (0xE023 - SETTINGS_BASE) 0)
        load_high_voltage_disconnect := gf32 (raw.getD (0xE024 - SETTINGS_BASE) 0)
        load_high_voltage_reconnect := gf32 (raw.getD (0xE025 - SETTINGS_BASE) 0)
        lvd_load_current_compensation := gf32 (raw.getD (0xE026 - SETTINGS_BASE) 0)
        lvd_warning_timeout := .fin (raw.getD (0xE027 - SETTINGS_BASE) 0 : ℚ)
        led_green_to_green_and_yellow_limit := gf32 (raw.getD (0xE030 - SETTINGS_BASE) 0)
        led_green_and_yellow_to_yellow_limit := gf32 (raw.getD (0xE031 - SETTINGS_BASE) 0)
        led_yellow_to_yellow_and_red_limit := gf32 (raw.getD (0xE032 - SETTINGS_BASE) 0)
        led_yellow_and_red_to_red_flashing_limit := gf32 (raw.getD (0xE033 - SETTINGS_BASE) 0)
        modbus_id := raw.getD (0xE034 - SETTINGS_BASE) 0 % 256
        meterbus_id := raw.getD (0xE035 - SETTINGS_BASE) 0 % 256
        mppt_fixed_vmp := gf32 (raw.getD (0xE036 - SETTINGS_BASE) 0)
        mppt_fixed_vmp_percent := gf32 (raw.getD (0xE037 - SETTINGS_BASE) 0)
        charge_current_limit := gf32 (raw.getD (0xE038 - SETTINGS_BASE) 0) }
  else none

/-- The per-field register writes `Connection::write_settings` issues,
in source order: `(address, encoded value)`. -/
def settingsWrites (s : Settings) : List (ℕ × ℕ) :=
  [(0xE000, to_v s.regulation_voltage),
   (0xE001, to_v s.float_voltage),
   (0xE002, to_sec s.time_before_float),
   (0xE003, to_sec s.time_before_float_low_battery),
   (0xE004, to_v s.float_low_battery_voltage_trigger),
   (0xE005, to_v s.float_cancel_voltage),
   (0xE006, to_sec s.exit_float_time),
   (0xE007, to_v s.equalize_voltage),
   (0xE008, to_dy s.days_between_equalize_cycles),
   (0xE009, to_sec s.equalize_time_limit_above_regulation_voltage),
   (0xE00A, to_sec s.equalize_time_limit_at_regulation_voltage),
   (0xE00D, if s.alarm_on_setting_change then 1 else 0),
   (0xE010, to_v s.reference_charge_voltage_limit),
   (0xE013, to_a s.battery_charge_current_limit),
   (0xE01A, to_v s.temperature_compensation_coefficent),
   (0xE01B, to_v s.high_voltage_disconnect),
   (0xE01C, to_v s.high_voltage_reconnect),
   (0xE01D, to_v s.maximum_charge_voltage_reference),
   (0xE01E, to_ic s.max_battery_temp_compensation_limit),
   (0xE01F, to_ic s.min_battery_temp_compensation_limit),
   (0xE022, to_v s.load_low_voltage_disconnect),
   (0xE023, to_v s.load_low_voltage_reconnect),
   (0xE024, to_v s.load_high_voltage_disconnect),
   (0xE025, to_v s.load_high_voltage_reconnect),
   (0xE026, to_om s.lvd_load_current_compensation),
   (0xE027, to_mn s.lvd_warning_timeout),
   (0xE030, to_v s.led_green_to_green_and_yellow_limit),
   (0xE031, to_v s.led_green_and_yellow_to_yellow_limit),
   (0xE032, to_v s.led_yellow_to_yellow_and_red_limit),
   (0xE033, to_v s.led_yellow_and_red_to_red_flashing_limit),
   (0xE034, s.modbus_id),
   (0xE035, s.meterbus_id),
   (0xE036, to_v s.mppt_fixed_vmp),
   (0xE037, encF32toBits s.mppt_fixed_vmp_percent),
   (0xE038, to_a s.charge_current_limit)]

/-- `f32` comparison `a < b` (false whenever either side is NaN). -/
def rltF : RFloat → RFloat → Bool
  | .nan, _ => false
  | _, .nan => false
  | .fin a, .fin b => decide (a < b)
  | .inf true, .inf true => false
  | .inf true, _ => true
  | .inf false, _ => false
  | .fin _, .inf false => true
  | .fin _, .inf true => false

/-- `f32` comparison `a > b`. -/
def rgtF (a b : RFloat) : Bool := rltF b a

/-- Multiply an `f32` by a positive rational constant (used to express
the source's base-unit comparison of a quantity stored here in a
different codec unit). -/
def rscale (k : ℚ) : RFloat → RFloat
  | .nan => .nan
  | .inf neg => .inf neg
  | .fin q => .fin (k * q)

/-- One range check of `Settings::validate`: reject when
`get s < fin lo` or `get s > fin hi` (the `validate!` macro), reporting
the field name and its bounds. -/
structure Check where
  name : String
  get : Settings → RFloat
  lo : ℚ
  hi : ℚ

/-- Whether a check rejects the candidate. -/
def checkFails (c : Check) (s : Settings) : Bool :=
  rltF (c.get s) (.fin c.lo) || rgtF (c.get s) (.fin c.hi)

/-- The checks of `Settings::validate`, in source order.  All bounds
are in the unit named by the `validate!` call; `lvd_warning_timeout`
is stored in minutes but bounded in seconds (`sec, 0., 65535.`), so
its getter converts minutes to base seconds.  `17.5` is `35/2`. -/
def checks : List Check :=
  [⟨"regulation_voltage", fun s => s.regulation_voltage, 0, 35/2⟩,
   ⟨"float_voltage", fun s => s.float_voltage, 0, 35/2⟩,
   ⟨"time_before_float", fun s => s.time_before_float, 0, 65535⟩,
   ⟨"time_before_float_low_battery", fun s => s.time_before_float_low_battery, 0, 65535⟩,
   ⟨"float_low_battery_voltage_trigger", fun s => s.float_low_battery_voltage_trigger, 0, 35/2⟩,
   ⟨"float_cancel_voltage", fun s => s.float_cancel_voltage, 0, 35/2⟩,
   ⟨"exit_float_time", fun s => s.exit_float_time, 0, 65535⟩,
   ⟨"equalize_voltage", fun s => s.equalize_voltage, 0, 35/2⟩,
   ⟨"days_between_equalize_cycles", fun s => s.days_between_equalize_cycles, 0, 255⟩,
   ⟨"equalize_time_limit_above_regulation_voltage",
     fun s => s.equalize_time_limit_above_regulation_voltage, 0, 65535⟩,
   ⟨"equalize_time_limit_at_regulation_voltage",
     fun s => s.equalize_time_limit_at_regulation_voltage, 0, 65535⟩,
   ⟨"reference_charge_voltage_limit", fun s => s.reference_charge_voltage_limit, 0, 35/2⟩,
   ⟨"battery_charge_current_limit", fun s => s.battery_charge_current_limit, 0, 40⟩,
   ⟨"temperature_compensation_coefficent",
     fun s => s.temperature_compensation_coefficent, 0, 35/2⟩,
   ⟨"high_voltage_disconnect", fun s => s.high_voltage_disconnect, 0, 35/2⟩,
   ⟨"high_voltage_reconnect", fun s => s.high_voltage_reconnect, 0, 35/2⟩,
   ⟨"maximum_charge_voltage_reference", fun s => s.maximum_charge_voltage_reference, 0, 35/2⟩,
   ⟨"max_battery_temp_compensation_limit",
     fun s => s.max_battery_temp_compensation_limit, -128, 127⟩,
   ⟨"min_battery_temp_compensation_limit",
     fun s => s.min_battery_temp_compensation_limit, -128, 127⟩,
   ⟨"load_low_voltage_disconnect", fun s => s.load_low_voltage_disconnect, 0, 35/2⟩,
   ⟨"load_low_voltage_reconnect", fun s => s.load_low_voltage_reconnect, 0, 35/2⟩,
   ⟨"load_high_voltage_disconnect", fun s => s.load_high_voltage_disconnect, 0, 35/2⟩,
   ⟨"load_high_voltage_reconnect", fun s => s.load_high_voltage_reconnect, 0, 35/2⟩,
   ⟨"lvd_load_current_compensation", fun s => s.lvd_load_current_compensation, 0, 10000⟩,
   ⟨"lvd_warning_timeout", fun s => rscale 60 s.lvd_warning_timeout, 0, 65535⟩,
   ⟨"led_green_to_green_and_yellow_limit",
     fun s => s.led_green_to_green_and_yellow_limit, 0, 35/2⟩,
   ⟨"led_green_and_yellow_to_yellow_limit",
     fun s => s.led_green_and_yellow_to_yellow_limit, 0, 35/2⟩,
   ⟨"led_yellow_to_yellow_and_red_limit",
     fun s => s.led_yellow_to_yellow_and_red_limit, 0, 35/2⟩,
   ⟨"led_yellow_and_red_to_red_flashing_limit",
     fun s => s.led_yellow_and_red_to_red_flashing_limit, 0, 35/2⟩,
   ⟨"modbus_id", fun s => .fin (s.modbus_id : ℚ), 1, 247⟩,
   ⟨"meterbus_id", fun s => .fin (s.meterbus_id : ℚ), 1, 15⟩,
   ⟨"mppt_fixed_vmp", fun s => s.mppt_fixed_vmp, 0, 120⟩,
   ⟨"mppt_fixed_vmp_percent", fun s => s.mppt_fixed_vmp_percent, 0, 1⟩,
   ⟨"charge_current_limit", fun s => s.charge_current_limit, 0, 40⟩]

/-- The check at index `i` of `checks` (a dummy check past the end). -/
def checkAt (i : ℕ) : Check := checks.getD i ⟨"", fun _ => .nan, 0, 0⟩

/-- Run a list of checks in order, failing on the first rejection with
the field name and bounds (the chain of `validate!` / `bail!`). -/
def validateL : List Check → Settings → Except (String × ℚ × ℚ) Unit
  | [], _ => .ok ()
  | c :: rest, s =>
    if checkFails c s then .error (c.name, c.lo, c.hi) else validateL rest s

/-- `Settings::validate`. -/
def Settings.validate (s : Settings) : Except (String × ℚ × ℚ) Unit :=
  validateL checks s

/-- A transport operation issued by the connection. -/
inductive TOp where
  | readRegs (addr count : ℕ) : TOp
  | writeReg (addr val : ℕ) : TOp
deriving DecidableEq

/-- Outcome of a `write_settings` call. -/
inductive WResult where
  | ok : WResult
  | valErr (e : String × ℚ × ℚ) : WResult
  | sizeErr (got expected : ℕ) : WResult
  | oob (addr : ℕ) : WResult
deriving DecidableEq

/-- The per-field loop of `write_settings`: each `write_setting(addr,
cur, new)` call indexes `cur[addr - SETTINGS_BASE]` (out of bounds is a
Rust panic, `oob`), skips the write when the current value equals the
encoded value, and otherwise issues a single-register write. -/
def writeLoop : List (ℕ × ℕ) → List ℕ → List TOp → List TOp × WResult
  | [], _, tr => (tr, .ok)
  | (addr, v) :: rest, cur, tr =>
    match cur.get? (addr - SETTINGS_BASE) with
    | none => (tr, .oob addr)
    | some c =>
      if c = v then writeLoop rest cur tr
      else writeLoop rest cur (tr ++ [.writeReg addr v])

/-- `Connection::write_settings`, as a function of the candidate and of
the register block the transport read returns: validate, read the
current block of `SETTINGS_END - SETTINGS_BASE` registers (the source
computes this length without `+ 1`), check the response length, then
run the per-field diff loop.  Returns the transport trace and the
outcome. -/
def writeSettingsRun (s : Settings) (cur : List ℕ) : List TOp × WResult :=
  match Settings.validate s with
  | .error e => ([], .valErr e)
  | .ok _ =>
    if cur.length ≠ SETTINGS_END - SETTINGS_BASE then
      ([.readRegs SETTINGS_BASE (SETTINGS_END - SETTINGS_BASE)],
       .sizeErr cur.length (SETTINGS_END - SETTINGS_BASE))
    else
      writeLoop (settingsWrites s) cur
        [.readRegs SETTINGS_BASE (SETTINGS_END - SETTINGS_BASE)]

/-- The full settings block length used by `read_settings`:
`(SETTINGS_END - SETTINGS_BASE) + 1`. -/
def settingsBlockLen : ℕ := (SETTINGS_END - SETTINGS_BASE) + 1

/-- The `rts_temperature` decode of `Connection::stats`:
`let t = gf32(raw[0x1D]); if t.is_nan() { None } else { Some(c(t)) }`. -/
def rtsTemperature (u : ℕ) : Option RFloat :=
  let t := gf32 u
  if t.isNaN then none else some t

/-- The `rts_temperature` field of a telemetry read: `stats` reads 81
registers starting at 0, fails on a length mismatch, and decodes
register `0x1D`. -/
def statsRtsDecode (raw : List ℕ) : Option (Option RFloat) :=
  if raw.length = 81 then some (rtsTemperature (raw.getD 0x1D 0)) else none

/-- Overwrite a register block with a list of `(address, value)` writes
(addresses are absolute; the block starts at `SETTINGS_BASE`). -/
def writeAll (base : List ℕ) (ws : List (ℕ × ℕ)) : List ℕ :=
  ws.foldl (fun acc p => acc.set (p.1 - SETTINGS_BASE) p.2) base

/-- `x` is a finite `f32` value exactly representable in binary16. -/
def F16Exact (x : RFloat) : Prop :=
  ∃ b, b < 0x7C00 ∧ (x = .fin (f16Val b) ∨ x = .fin (-(f16Val b)))

/-- `x` is a finite `f32` holding an integer in `u16` range. -/
def U16Val (x : RFloat) : Prop :=
  ∃ n : ℕ, n < 65536 ∧ x = .fin (n : ℚ)

/-- `x` is a finite `f32` holding an integer in `i16` range. -/
def I16Val (x : RFloat) : Prop :=
  ∃ n : ℤ, -32768 ≤ n ∧ n < 32768 ∧ x = .fin (n : ℚ)

/-- Per-field representability of a `Settings` candidate: each
binary16-encoded field holds an exactly representable value, each
integer-duration field an integer in `u16` range, each signed
temperature field an integer in `i16` range, and each bus address a
`u8` value. -/
structure GoodSettings (s : Settings) : Prop where
  h_regulation_voltage : F16Exact s.regulation_voltage
  h_float_voltage : F16Exact s.float_voltage
  h_time_before_float : U16Val s.time_before_float
  h_time_before_float_low_battery : U16Val s.time_before_float_low_battery
  h_float_low_battery_voltage_trigger : F16Exact s.float_low_battery_voltage_trigger
  h_float_cancel_voltage : F16Exact s.float_cancel_voltage
  h_exit_float_time : U16Val s.exit_float_time
  h_equalize_voltage : F16Exact s.equalize_voltage
  h_days_between_equalize_cycles : U16Val s.days_between_equalize_cycles
  h_equalize_time_limit_above_regulation_voltage :
    U16Val s.equalize_time_limit_above_regulation_voltage
  h_equalize_time_limit_at_regulation_voltage :
    U16Val s.equalize_time_limit_at_regulation_voltage
  h_reference_charge_voltage_limit : F16Exact s.reference_charge_voltage_limit
  h_battery_charge_current_limit : F16Exact s.battery_charge_current_limit
  h_temperature_compensation_coefficent : F16Exact s.temperature_compensation_coefficent
  h_high_voltage_disconnect : F16Exact s.high_voltage_disconnect
  h_high_voltage_reconnect : F16Exact s.high_voltage_reconnect
  h_maximum_charge_voltage_reference : F16Exact s.maximum_charge_voltage_reference
  h_max_battery_temp_compensation_limit : I16Val s.max_battery_temp_compensation_limit
  h_min_battery_temp_compensation_limit : I16Val s.min_battery_temp_compensation_limit
  h_load_low_voltage_disconnect : F16Exact s.load_low_voltage_disconnect
  h_load_low_voltage_reconnect : F16Exact s.load_low_voltage_reconnect
  h_load_high_voltage_disconnect : F16Exact s.load_high_voltage_disconnect
  h_load_high_voltage_reconnect : F16Exact s.load_high_voltage_reconnect
  h_lvd_load_current_compensation : F16Exact s.lvd_load_current_compensation
  h_lvd_warning_timeout : U16Val s.lvd_warning_timeout
  h_led_green_to_green_and_yellow_limit : F16Exact s.led_green_to_green_and_yellow_limit
  h_led_green_and_yellow_to_yellow_limit : F16Exact s.led_green_and_yellow_to_yellow_limit
  h_led_yellow_to_yellow_and_red_limit : F16Exact s.led_yellow_to_yellow_and_red_limit
  h_led_yellow_and_red_to_red_flashing_limit :
    F16Exact s.led_yellow_and_red_to_red_flashing_limit
  h_modbus_id : s.modbus_id < 256
  h_meterbus_id : s.meterbus_id < 256
  h_mppt_fixed_vmp : F16Exact s.mppt_fixed_vmp
  h_mppt_fixed_vmp_percent : F16Exact s.mppt_fixed_vmp_percent
  h_charge_current_limit : F16Exact s.charge_current_limit

/-- A valid candidate: every quantity zero, bus addresses 1. -/
def sZero : Settings :=
  { regulation_voltage := .fin 0
    float_voltage := .fin 0
    time_before_float := .fin 0
    time_before_float_low_battery := .fin 0
    float_low_battery_voltage_trigger := .fin 0
    float_cancel_voltage := .fin 0
    exit_float_time := .fin 0
    equalize_voltage := .fin 0
    days_between_equalize_cycles := .fin 0
    equalize_time_limit_above_regulation_voltage := .fin 0
    equalize_time_limit_at_regulation_voltage := .fin 0
    alarm_on_setting_change := false
    reference_charge_voltage_limit := .fin 0
    battery_charge_current_limit := .fin 0
    temperature_compensation_coefficent := .fin 0
    high_voltage_disconnect := .fin 0
    high_voltage_reconnect := .fin 0
    maximum_charge_voltage_reference := .fin 0
    max_battery_temp_compensation_limit := .fin 0
    min_battery_temp_compensation_limit := .fin 0
    load_low_voltage_disconnect := .fin 0
    load_low_voltage_reconnect := .fin 0
    load_high_voltage_disconnect := .fin 0
    load_high_voltage_reconnect := .fin 0
    lvd_load_current_compensation := .fin 0
    lvd_warning_timeout := .fin 0
    led_green_to_green_and_yellow_limit := .fin 0
    led_green_and_yellow_to_yellow_limit := .fin 0
    led_yellow_to_yellow_and_red_limit := .fin 0
    led_yellow_and_red_to_red_flashing_limit := .fin 0
    modbus_id := 1
    meterbus_id := 1
    mppt_fixed_vmp := .fin 0
    mppt_fixed_vmp_percent := .fin 0
    charge_current_limit := .fin 0 }

/-- A 56-register current block agreeing with `sZero`'s encoded form at
every in-range offset (`0xE034`/`0xE035` hold 1, the rest 0). -/
def curMatch : List ℕ := (((List.replicate 56 0).set 0x34 1).set 0x35 1)

/-- `sZero` with an out-of-range regulation voltage (18 V > 17.5 V). -/
def sBadReg : Settings := { sZero with regulation_voltage := .fin 18 }

/-- `sZero` with an out-of-range modbus address (0 < 1). -/
def sBadModbus : Settings := { sZero with modbus_id := 0 }

/-- A candidate with representable, nonzero values in every field. -/
def sRound : Settings :=
  { regulation_voltage := .fin 1
    float_voltage := .fin 1
    time_before_float := .fin 5
    time_before_float_low_battery := .fin 65535
    float_low_battery_voltage_trigger := .fin 1
    float_cancel_voltage := .fin 1
    exit_float_time := .fin 5
    equalize_voltage := .fin 1
    days_between_equalize_cycles := .fin 255
    equalize_time_limit_above_regulation_voltage := .fin 5
    equalize_time_limit_at_regulation_voltage := .fin 7
    alarm_on_setting_change := true
    reference_charge_voltage_limit := .fin 1
    battery_charge_current_limit := .fin 1
    temperature_compensation_coefficent := .fin 1
    high_voltage_disconnect := .fin 1
    high_voltage_reconnect := .fin 1
    maximum_charge_voltage_reference := .fin 1
    max_battery_temp_compensation_limit := .fin (-256)
    min_battery_temp_compensation_limit := .fin 127
    load_low_voltage_disconnect := .fin 1
    load_low_voltage_reconnect := .fin 1
    load_high_voltage_disconnect := .fin 1
    load_high_voltage_reconnect := .fin 1
    lvd_load_current_compensation := .fin 1
    lvd_warning_timeout := .fin 10
    led_green_to_green_and_yellow_limit := .fin 1
    led_green_and_yellow_to_yellow_limit := .fin 1
    led_yellow_to_yellow_and_red_limit := .fin 1
    led_yellow_and_red_to_red_flashing_limit := .fin 1
    modbus_id := 2
    meterbus_id := 3
    mppt_fixed_vmp := .fin 1
    mppt_fixed_vmp_percent := .fin (1/2)
    charge_current_limit := .fin 1 }

/-- An 81-register telemetry block with a binary16 NaN pattern
(`0x7E00`) at the RTS temperature offset `0x1D`. -/
def rawNaNBlock : List ℕ := (List.replicate 81 0).set 0x1D 0x7E00

lemma pow2_eq_zpow (e : ℤ) : pow2 e = (2 : ℚ) ^ e := by
  unfold pow2
  split
  · rw [← zpow_natCast]
    congr 1
    omega
  · rw [← zpow_natCast, ← zpow_neg]
    congr 1
    omega

lemma pow2_pos (e : ℤ) : 0 < pow2 e := by
  rw [pow2_eq_zpow]
  exact zpow_pos (by norm_num) e

lemma pow2_lt_pow2 {e f : ℤ} (h : e < f) : pow2 e < pow2 f := by
  rw [pow2_eq_zpow, pow2_eq_zpow]
  exact zpow_lt_zpow_right₀ (by norm_num) h

lemma pow2_lt_pow2_rev {e f : ℤ} (h : pow2 e < pow2 f) : e < f := by
  by_contra hc
  exact absurd h (not_lt.mpr (by
    rw [pow2_eq_zpow, pow2_eq_zpow]
    exact zpow_le_zpow_right₀ (by norm_num) (by omega)))

lemma pow2_add (a b : ℤ) : pow2 (a + b) = pow2 a * pow2 b := by
  rw [pow2_eq_zpow, pow2_eq_zpow, pow2_eq_zpow]
  exact zpow_add₀ (by norm_num) a b

lemma rne_intCast (n : ℤ) : rne (n : ℚ) = n := by
  unfold rne
  rw [Int.floor_intCast]
  norm_num

lemma rne_le_of_lt_half {q : ℚ} {n : ℤ} (h : q < (n : ℚ) + 1/2) :
    rne q ≤ n := by
  unfold rne
  have hf : ⌊q⌋ ≤ n := by
    have : (⌊q⌋ : ℚ) ≤ q := Int.floor_le q
    have hlt : (⌊q⌋ : ℚ) < (n : ℚ) + 1/2 := lt_of_le_of_lt this h
    by_contra hc
    push_neg at hc
    have : (n : ℚ) + 1 ≤ (⌊q⌋ : ℚ) := by exact_mod_cast hc
    linarith
  split
  · exact hf
  · rcases lt_or_eq_of_le hf with h1 | h1
    · split
      · omega
      · split
        · omega
        · omega
    · subst h1
      have : q - (⌊q⌋ : ℚ) < 1/2 := by linarith
      linarith [show ¬ (q - (⌊q⌋ : ℚ) < 1/2) from by assumption]

lemma expLoop_eq (q : ℚ) : ∀ (fuel : ℕ) (e t : ℤ), e ≤ t → t < e + fuel →
    pow2 t ≤ q → q < pow2 (t + 1) → expLoop fuel e q = t := by
  intro fuel
  induction fuel with
  | zero => intro e t h1 h2 _ _; omega
  | succ n ih =>
    intro e t h1 h2 h3 h4
    unfold expLoop
    split
    · rename_i hlt
      have : pow2 t < pow2 (e + 1) := lt_of_le_of_lt h3 hlt
      have := pow2_lt_pow2_rev this
      omega
    · rename_i hge
      push_neg at hge
      have het : e ≠ t := by
        rintro rfl
        exact absurd h4 (not_lt.mpr hge)
      exact ih (e + 1) t (by omega) (by omega) h3 h4

lemma pow2_ten : pow2 10 = 1024 := by decide

lemma pow2_eleven : pow2 11 = 2048 := by decide

lemma f16Val_nonneg (b : ℕ) : 0 ≤ f16Val b := by
  unfold f16Val
  split
  · exact mul_nonneg (by positivity) (le_of_lt (pow2_pos _))
  · exact mul_nonneg (by positivity) (le_of_lt (pow2_pos _))

lemma encodeCore_f16Val {b : ℕ} (hb : b < 0x7C00) : encodeCore (f16Val b) = b := by
  by_cases hsub : b < 1024
  · -- subnormal patterns
    have h1 : f16Exp b = 0 := by unfold f16Exp; omega
    have h2 : f16Man b = b := by unfold f16Man; omega
    have hval : f16Val b = (b : ℚ) * pow2 (-24) := by
      unfold f16Val; rw [h1, h2]; simp
    by_cases hzero : b = 0
    · subst hzero
      rw [hval]
      norm_num [encodeCore]
    · have hpos : 0 < (b : ℚ) * pow2 (-24) := by
        have := pow2_pos (-24)
        have hb0 : 0 < (b : ℚ) := by exact_mod_cast Nat.pos_of_ne_zero hzero
        positivity
      have he : expLoop 30 (-14) ((b : ℚ) * pow2 (-24)) = -14 := by
        unfold expLoop
        rw [if_pos]
        have h13 : pow2 (-14 + 1) = 2048 * pow2 (-24) := by
          rw [show (-14 + 1 : ℤ) = 11 + -24 by ring, pow2_add, pow2_eleven]
        rw [h13]
        have hblt : (b : ℚ) < 2048 := by
          exact_mod_cast lt_trans hsub (by norm_num : (1024 : ℕ) < 2048)
        exact mul_lt_mul_of_pos_right hblt (pow2_pos (-24))
      rw [hval]
      simp only [encodeCore]
      rw [if_neg (not_le.mpr hpos), he]
      rw [if_neg (by norm_num : ¬ (16 : ℤ) ≤ -14)]
      rw [show (-14 : ℤ) - 10 = -24 by ring]
      rw [mul_div_cancel_right₀ _ (ne_of_gt (pow2_pos (-24)))]
      rw [show ((b : ℚ)) = ((b : ℤ) : ℚ) by push_cast; ring, rne_intCast]
      rw [if_pos (by exact_mod_cast hsub)]
      omega
  · -- normal patterns
    push_neg at hsub
    have hE1 : 1 ≤ b / 1024 := by omega
    have hE30 : b / 1024 ≤ 30 := by omega
    have hexp : f16Exp b = b / 1024 := by unfold f16Exp; omega
    have hman : f16Man b = b % 1024 := rfl
    have hval : f16Val b = (1024 + (b % 1024 : ℕ) : ℚ) * pow2 ((b / 1024 : ℕ) - 25) := by
      unfold f16Val
      rw [hexp, hman, if_neg (by omega)]
    have hEpos : (0 : ℚ) < 1024 + (b % 1024 : ℕ) := by positivity
    have hq_lb : pow2 (((b / 1024 : ℕ) : ℤ) - 15) ≤ f16Val b := by
      rw [hval, show (((b / 1024 : ℕ) : ℤ) - 15) = 10 + (((b / 1024 : ℕ) : ℤ) - 25) by ring,
        pow2_add, pow2_ten]
      have : (1024 : ℚ) ≤ 1024 + (b % 1024 : ℕ) :=
        le_add_of_nonneg_right (by positivity)
      exact mul_le_mul_of_nonneg_right this (le_of_lt (pow2_pos _))
    have hq_ub : f16Val b < pow2 (((b / 1024 : ℕ) : ℤ) - 14) := by
      rw [hval, show (((b / 1024 : ℕ) : ℤ) - 14) = 11 + (((b / 1024 : ℕ) : ℤ) - 25) by ring,
        pow2_add, pow2_eleven]
      have hm : (b % 1024 : ℕ) < 1024 := Nat.mod_lt _ (by norm_num)
      have : (1024 + (b % 1024 : ℕ) : ℚ) < 2048 := by
        have : ((b % 1024 : ℕ) : ℚ) < 1024 := by exact_mod_cast hm
        linarith
      exact mul_lt_mul_of_pos_right this (pow2_pos _)
    have he : expLoop 30 (-14) (f16Val b) = ((b / 1024 : ℕ) : ℤ) - 15 := by
      apply expLoop_eq _ 30 (-14) _ (by omega) (by omega) hq_lb
      rw [show (((b / 1024 : ℕ) : ℤ) - 15) + 1 = ((b / 1024 : ℕ) : ℤ) - 14 by ring]
      exact hq_ub
    have hqpos : 0 < f16Val b := by
      rw [hval]
      exact mul_pos hEpos (pow2_pos _)
    rw [hval] at he hqpos ⊢
    simp only [encodeCore]
    rw [if_neg (not_le.mpr hqpos), he]
    rw [if_neg (by omega : ¬ (16 : ℤ) ≤ ((b / 1024 : ℕ) : ℤ) - 15)]
    rw [show (((b / 1024 : ℕ) : ℤ) - 15) - 10 = ((b / 1024 : ℕ) : ℤ) - 25 by ring]
    rw [mul_div_cancel_right₀ _ (ne_of_gt (pow2_pos _))]
    rw [show (1024 + ((b % 1024 : ℕ) : ℚ)) = (((1024 + b % 1024 : ℕ) : ℤ) : ℚ) by
        rw [Int.cast_natCast, Nat.cast_add]; norm_num,
      rne_intCast]
    rw [if_neg (by omega), if_pos (by omega)]
    omega

lemma f16Exp_lt {b : ℕ} (hb : b < 0x7C00) : f16Exp b = b / 1024 := by
  unfold f16Exp; omega

lemma decodeF16_lt {b : ℕ} (hb : b < 0x7C00) : decodeF16 b = .fin (f16Val b) := by
  unfold decodeF16
  rw [if_neg (by rw [f16Exp_lt hb]; omega)]
  have : f16Neg b = false := by unfold f16Neg; simp; omega
  rw [this]
  simp

lemma f16Val_sign (b : ℕ) : f16Val (32768 + b) = f16Val b := by
  have h1 : f16Exp (32768 + b) = f16Exp b := by unfold f16Exp; omega
  have h2 : f16Man (32768 + b) = f16Man b := by unfold f16Man; omega
  unfold f16Val
  rw [h1, h2]

lemma decodeF16_sign {b : ℕ} (hb : b < 0x7C00) :
    decodeF16 (32768 + b) = .fin (-(f16Val b)) := by
  unfold decodeF16
  rw [if_neg (by rw [show f16Exp (32768 + b) = b / 1024 from by unfold f16Exp; omega]; omega)]
  have : f16Neg (32768 + b) = true := by unfold f16Neg; simp; omega
  rw [this, f16Val_sign b]
  simp

lemma encodeF16_f16Val {b : ℕ} (hb : b < 0x7C00) : encodeF16 (f16Val b) = b := by
  unfold encodeF16
  rw [if_neg (not_lt.mpr (f16Val_nonneg b))]
  exact encodeCore_f16Val hb

lemma gf32_encF32 {x : RFloat} (h : F16Exact x) : gf32 (encF32toBits x) = x := by
  obtain ⟨b, hb, hx | hx⟩ := h
  all_goals subst hx
  · rw [show encF32toBits (.fin (f16Val b)) = encodeF16 (f16Val b) from rfl,
      encodeF16_f16Val hb]
    unfold gf32
    rw [decodeF16_lt hb]
  · by_cases hz : f16Val b = 0
    · rw [hz]
      have h0 : encF32toBits (.fin (-0)) = 0 := by
        norm_num [encF32toBits, encodeF16, encodeCore]
      rw [h0]
      have h1 : gf32 0 = .fin 0 := by
        norm_num [gf32, decodeF16, f16Exp, f16Man, f16Neg, f16Val]
      rw [h1]
      norm_num
    · have hpos : 0 < f16Val b := lt_of_le_of_ne (f16Val_nonneg b) (Ne.symm hz)
      rw [show encF32toBits (.fin (-(f16Val b))) = encodeF16 (-(f16Val b)) from rfl]
      unfold encodeF16
      rw [if_pos (by linarith), neg_neg, encodeCore_f16Val hb]
      unfold gf32
      rw [decodeF16_sign hb]

lemma truncQ_natCast (n : ℕ) : truncQ (n : ℚ) = n := by
  unfold truncQ
  rw [if_pos (by positivity)]
  exact_mod_cast Int.floor_natCast n

lemma truncQ_intCast (n : ℤ) : truncQ (n : ℚ) = n := by
  unfold truncQ
  split
  · exact Int.floor_intCast n
  · rw [show (-(n : ℚ)) = ((-n : ℤ) : ℚ) by push_cast; ring, Int.floor_intCast]
    omega

lemma castSatU16 {n : ℕ} (hn : n < 65536) : castSat 0 65535 (.fin (n : ℚ)) = n := by
  rw [show castSat 0 65535 (.fin (n : ℚ)) = max 0 (min 65535 (truncQ (n : ℚ))) from rfl,
    truncQ_natCast]
  omega

lemma to_sec_roundtrip {x : RFloat} (h : U16Val x) : RFloat.fin ((to_sec x : ℕ) : ℚ) = x := by
  obtain ⟨n, hn, rfl⟩ := h
  unfold to_sec
  rw [castSatU16 hn]
  norm_num

lemma to_dy_roundtrip {x : RFloat} (h : U16Val x) : RFloat.fin ((to_dy x : ℕ) : ℚ) = x := by
  obtain ⟨n, hn, rfl⟩ := h
  unfold to_dy
  rw [castSatU16 hn]
  norm_num

lemma to_mn_roundtrip {x : RFloat} (h : U16Val x) : RFloat.fin ((to_mn x : ℕ) : ℚ) = x := by
  obtain ⟨n, hn, rfl⟩ := h
  unfold to_mn
  rw [castSatU16 hn]
  norm_num

lemma ic_to_ic {x : RFloat} (h : I16Val x) : ic (to_ic x) = x := by
  obtain ⟨n, h1, h2, rfl⟩ := h
  unfold to_ic
  rw [show castSat (-32768) 32767 (.fin (n : ℚ)) =
      max (-32768) (min 32767 (truncQ (n : ℚ))) from rfl, truncQ_intCast,
    show max (-32768) (min 32767 n) = n from by omega]
  have hiv : i16val (n % 65536).toNat = n := by
    unfold i16val
    split
    · omega
    · omega
  unfold ic
  rw [hiv]

lemma getD_set_ne {α : Type} (l : List α) (d v : α) {i j : ℕ} (h : i ≠ j) :
    (l.set i v).getD j d = l.getD j d := by
  induction l generalizing i j with
  | nil => rfl
  | cons a tl ih =>
    cases i with
    | zero =>
      cases j with
      | zero => omega
      | succ j => rfl
    | succ i =>
      cases j with
      | zero => rfl
      | succ j => exact ih (by omega)

lemma getD_set_self {α : Type} (l : List α) (d v : α) {i : ℕ} (h : i < l.length) :
    (l.set i v).getD i d = v := by
  induction l generalizing i with
  | nil => simp at h
  | cons a tl ih =>
    cases i with
    | zero => rfl
    | succ i => exact ih (by simpa using h)

lemma length_writeAll (base : List ℕ) (ws : List (ℕ × ℕ)) :
    (writeAll base ws).length = base.length := by
  induction ws generalizing base with
  | nil => rfl
  | cons p rest ih =>
    unfold writeAll
    simp only [List.foldl_cons]
    rw [show (rest.foldl (fun acc p => acc.set (p.1 - SETTINGS_BASE) p.2)
        (base.set (p.1 - SETTINGS_BASE) p.2)) =
      writeAll (base.set (p.1 - SETTINGS_BASE) p.2) rest from rfl, ih]
    simp

lemma expLoop_ge (q : ℚ) : ∀ (fuel : ℕ) (e : ℤ), e ≤ expLoop fuel e q := by
  intro fuel
  induction fuel with
  | zero => intro e; simp [expLoop]
  | succ n ih =>
    intro e
    unfold expLoop
    split
    · omega
    · have := ih (e + 1)
      omega

lemma expLoop_le (q : ℚ) : ∀ (fuel : ℕ) (e t : ℤ), e ≤ t → q < pow2 (t + 1) →
    expLoop fuel e q ≤ t := by
  intro fuel
  induction fuel with
  | zero => intro e t h _; simpa [expLoop] using h
  | succ n ih =>
    intro e t h ht
    unfold expLoop
    split
    · exact h
    · rename_i hfail
      push_neg at hfail
      have het : e ≠ t := by
        rintro rfl
        exact absurd ht (not_lt.mpr hfail)
      exact ih (e + 1) t (by omega) ht

lemma expLoop_exit (q : ℚ) : ∀ (fuel : ℕ) (e : ℤ), expLoop fuel e q < e + fuel →
    q < pow2 (expLoop fuel e q + 1) := by
  intro fuel
  induction fuel with
  | zero => intro e h; simp [expLoop] at h
  | succ n ih =>
    intro e h
    unfold expLoop at h ⊢
    by_cases hpass : q < pow2 (e + 1)
    · simp [hpass]
    · simp only [hpass, if_false] at h ⊢
      exact ih (e + 1) (by push_cast at h ⊢; omega)

lemma encodeCore_lt_inf {q : ℚ} (h : q < 65520) : encodeCore q < 0x7C00 := by
  simp only [encodeCore]
  split
  · norm_num
  · rename_i hq0
    push_neg at hq0
    have hge : (-14 : ℤ) ≤ expLoop 30 (-14) q := expLoop_ge q 30 (-14)
    have hle : expLoop 30 (-14) q ≤ 15 := by
      apply expLoop_le q 30 (-14) 15 (by norm_num)
      rw [show pow2 (15 + 1) = 65536 from by decide]
      linarith
    rw [if_neg (by omega)]
    have hexit : q < pow2 (expLoop 30 (-14) q + 1) :=
      expLoop_exit q 30 (-14) (by omega)
    have hdiv : q / pow2 (expLoop 30 (-14) q - 10) < 2048 := by
      rw [div_lt_iff₀ (pow2_pos _)]
      calc q < pow2 (expLoop 30 (-14) q + 1) := hexit
        _ = 2048 * pow2 (expLoop 30 (-14) q - 10) := by
            rw [show (expLoop 30 (-14) q + 1) = 11 + (expLoop 30 (-14) q - 10) by ring,
              pow2_add, pow2_eleven]
    have hs : rne (q / pow2 (expLoop 30 (-14) q - 10)) ≤ 2048 := by
      apply rne_le_of_lt_half
      push_cast
      linarith
    split
    · rename_i hlt
      omega
    · split
      · rename_i hge1024 hlt2048
        omega
      · split
        · rename_i hge2048 he15
          exfalso
          have hs2047 : rne (q / pow2 (expLoop 30 (-14) q - 10)) ≤ 2047 := by
            apply rne_le_of_lt_half
            rw [div_lt_iff₀ (pow2_pos _), he15]
            rw [show (15 : ℤ) - 10 = 5 by ring, show pow2 5 = 32 from by decide]
            push_cast
            linarith
          omega
        · rename_i hge2048 hne15
          omega

lemma gf32_fin_of_lt {b : ℕ} (hb : b < 0x7C00) : gf32 b = .fin (f16Val b) := by
  unfold gf32
  rw [decodeF16_lt hb]

lemma gf32_sign_of_lt {b : ℕ} (hb : b < 0x7C00) :
    gf32 (32768 + b) = .fin (-(f16Val b)) := by
  unfold gf32
  rw [decodeF16_sign hb]

lemma F16Exact_gf32_encodeF16 {q : ℚ} (h1 : -65520 < q) (h2 : q < 65520) :
    F16Exact (gf32 (encodeF16 q)) := by
  unfold encodeF16
  split
  · have hb : encodeCore (-q) < 0x7C00 := encodeCore_lt_inf (by linarith)
    rw [gf32_sign_of_lt hb]
    exact ⟨encodeCore (-q), hb, Or.inr rfl⟩
  · have hb : encodeCore q < 0x7C00 := encodeCore_lt_inf h2
    rw [gf32_fin_of_lt hb]
    exact ⟨encodeCore q, hb, Or.inl rfl⟩

lemma decide_ite_one (b : Bool) : decide ((if b then 1 else 0 : ℕ) = 1) = b := by
  cases b <;> simp

lemma validateL_first (d : Check) :
    ∀ (L : List Check) (s : Settings) (i : ℕ), i < L.length →
    (∀ j, j < i → checkFails (L.getD j d) s = false) →
    checkFails (L.getD i d) s = true →
    validateL L s = .error ((L.getD i d).name, (L.getD i d).lo, (L.getD i d).hi) := by
  intro L
  induction L with
  | nil => intro s i hi; simp at hi
  | cons c rest ih =>
    intro s i hi hprev hfail
    cases i with
    | zero =>
      simp only [List.getD_cons_zero] at hfail ⊢
      unfold validateL
      rw [if_pos hfail]
    | succ i =>
      simp only [List.getD_cons_succ] at hfail ⊢
      have h0 : checkFails c s = false := by
        have := hprev 0 (by omega)
        simpa using this
      unfold validateL
      rw [if_neg (by simp [h0])]
      exact ih s i (by simpa using hi) (fun j hj => by
        have := hprev (j + 1) (by omega)
        simpa using this) hfail

lemma validateL_isError :
    ∀ (L : List Check) (s : Settings), (∃ c ∈ L, checkFails c s = true) →
    ∃ e, validateL L s = .error e := by
  intro L
  induction L with
  | nil => intro s h; simp at h
  | cons c rest ih =>
    intro s h
    unfold validateL
    by_cases hc : checkFails c s = true
    · exact ⟨_, by rw [if_pos hc]⟩
    · rw [if_neg hc]
      apply ih
      rcases h with ⟨c0, hmem, hfl⟩
      rcases List.mem_cons.mp hmem with rfl | hmem0
      · exact absurd hfl hc
      · exact ⟨c0, hmem0, hfl⟩


lemma waGetD_0 (base : List ℕ) (hb : base.length = 57) (s : Settings) :
    (writeAll base (settingsWrites s)).getD 0 0 = to_v s.regulation_voltage := by
  unfold writeAll settingsWrites
  simp only [List.foldl_cons, List.foldl_nil]
  norm_num [SETTINGS_BASE]
  simp [getD_set_ne, getD_set_self, List.length_set, hb]

lemma waGetD_1 (base : List ℕ) (hb : base.length = 57) (s : Settings) :
    (writeAll base (settingsWrites s)).getD 1 0 = to_v s.float_voltage := by
  unfold writeAll settingsWrites
  simp only [List.foldl_cons, List.foldl_nil]
  norm_num [SETTINGS_BASE]
  simp [getD_set_ne, getD_set_self, List.length_set, hb]

lemma waGetD_2 (base : List ℕ) (hb : base.length = 57) (s : Settings) :
    (writeAll base (settingsWrites s)).getD 2 0 = to_sec s.time_before_float := by
  unfold writeAll settingsWrites
  simp only [List.foldl_cons, List.foldl_nil]
  norm_num [SETTINGS_BASE]
  simp [getD_set_ne, getD_set_self, List.length_set, hb]

lemma waGetD_3 (base : List ℕ) (hb : base.length = 57) (s : Settings) :
    (writeAll base (settingsWrites s)).getD 3 0 = to_sec s.time_before_float_low_battery := by
  unfold writeAll settingsWrites
  simp only [List.foldl_cons, List.foldl_nil]
  norm_num [SETTINGS_BASE]
  simp [getD_set_ne, getD_set_self, List.length_set, hb]

lemma waGetD_4 (base : List ℕ) (hb : base.length = 57) (s : Settings) :
    (writeAll base (settingsWrites s)).getD 4 0 = to_v s.float_low_battery_voltage_trigger := by
  unfold writeAll settingsWrites
  simp only [List.foldl_cons, List.foldl_nil]
  norm_num [SETTINGS_BASE]
  simp [getD_set_ne, getD_set_self, List.length_set, hb]

lemma waGetD_5 (base : List ℕ) (hb : base.length = 57) (s : Settings) :
    (writeAll base (settingsWrites s)).getD 5 0 = to_v s.float_cancel_voltage := by
  unfold writeAll settingsWrites
  simp only [List.foldl_cons, List.foldl_nil]
  norm_num [SETTINGS_BASE]
  simp [getD_set_ne, getD_set_self, List.length_set, hb]

lemma waGetD_6 (base : List ℕ) (hb : base.length = 57) (s : Settings) :
    (writeAll base (settingsWrites s)).getD 6 0 = to_sec s.exit_float_time := by
  unfold writeAll settingsWrites
  simp only [List.foldl_cons, List.foldl_nil]
  norm_num [SETTINGS_BASE]
  simp [getD_set_ne, getD_set_self, List.length_set, hb]

lemma waGetD_7 (base : List ℕ) (hb : base.length = 57) (s : Settings) :
    (writeAll base (settingsWrites s)).getD 7 0 = to_v s.equalize_voltage := by
  unfold writeAll settingsWrites
  simp only [List.foldl_cons, List.foldl_nil]
  norm_num [SETTINGS_BASE]
  simp [getD_set_ne, getD_set_self, List.length_set, hb]

lemma waGetD_8 (base : List ℕ) (hb : base.length = 57) (s : Settings) :
    (writeAll base (settingsWrites s)).getD 8 0 = to_dy s.days_between_equalize_cycles := by
  unfold writeAll settingsWrites
  simp only [List.foldl_cons, List.foldl_nil]
  norm_num [SETTINGS_BASE]
  simp [getD_set_ne, getD_set_self, List.length_set, hb]

lemma waGetD_9 (base : List ℕ) (hb : base.length = 57) (s : Settings) :
    (writeAll base (settingsWrites s)).getD 9 0 = to_sec s.equalize_time_limit_above_regulation_voltage := by
  unfold writeAll settingsWrites
  simp only [List.foldl_cons, List.foldl_nil]
  norm_num [SETTINGS_BASE]
  simp [getD_set_ne, getD_set_self, List.length_set, hb]

lemma waGetD_10 (base : List ℕ) (hb : base.length = 57) (s : Settings) :
    (writeAll base (settingsWrites s)).getD 10 0 = to_sec s.equalize_time_limit_at_regulation_voltage := by
  unfold writeAll settingsWrites
  simp only [List.foldl_cons, List.foldl_nil]
  norm_num [SETTINGS_BASE]
  simp [getD_set_ne, getD_set_self, List.length_set, hb]

lemma waGetD_13 (base : List ℕ) (hb : base.length = 57) (s : Settings) :
    (writeAll base (settingsWrites s)).getD 13 0 = (if s.alarm_on_setting_change then 1 else 0) := by
  unfold writeAll settingsWrites
  simp only [List.foldl_cons, List.foldl_nil]
  norm_num [SETTINGS_BASE]
  simp [getD_set_ne, getD_set_self, List.length_set, hb]

lemma waGetD_16 (base : List ℕ) (hb : base.length = 57) (s : Settings) :
    (writeAll base (settingsWrites s)).getD 16 0 = to_v s.reference_charge_voltage_limit := by
  unfold writeAll settingsWrites
  simp only [List.foldl_cons, List.foldl_nil]
  norm_num [SETTINGS_BASE]
  simp [getD_set_ne, getD_set_self, List.length_set, hb]

lemma waGetD_19 (base : List ℕ) (hb : base.length = 57) (s : Settings) :
    (writeAll base (settingsWrites s)).getD 19 0 = to_a s.battery_charge_current_limit := by
  unfold writeAll settingsWrites
  simp only [List.foldl_cons, List.foldl_nil]
  norm_num [SETTINGS_BASE]
  simp [getD_set_ne, getD_set_self, List.length_set, hb]

lemma waGetD_26 (base : List ℕ) (hb : base.length = 57) (s : Settings) :
    (writeAll base (settingsWrites s)).getD 26 0 = to_v s.temperature_compensation_coefficent := by
  unfold writeAll settingsWrites
  simp only [List.foldl_cons, List.foldl_nil]
  norm_num [SETTINGS_BASE]
  simp [getD_set_ne, getD_set_self, List.length_set, hb]

lemma waGetD_27 (base : List ℕ) (hb : base.length = 57) (s : Settings) :
    (writeAll base (settingsWrites s)).getD 27 0 = to_v s.high_voltage_disconnect := by
  unfold writeAll settingsWrites
  simp only [List.foldl_cons, List.foldl_nil]
  norm_num [SETTINGS_BASE]
  simp [getD_set_ne, getD_set_self, List.length_set, hb]

lemma waGetD_28 (base : List ℕ) (hb : base.length = 57) (s : Settings) :
    (writeAll base (settingsWrites s)).getD 28 0 = to_v s.high_voltage_reconnect := by
  unfold writeAll settingsWrites
  simp only [List.foldl_cons, List.foldl_nil]
  norm_num [SETTINGS_BASE]
  simp [getD_set_ne, getD_set_self, List.length_set, hb]

lemma waGetD_29 (base : List ℕ) (hb : base.length = 57) (s : Settings) :
    (writeAll base (settingsWrites s)).getD 29 0 = to_v s.maximum_charge_voltage_reference := by
  unfold writeAll settingsWrites
  simp only [List.foldl_cons, List.foldl_nil]
  norm_num [SETTINGS_BASE]
  simp [getD_set_ne, getD_set_self, List.length_set, hb]

lemma waGetD_30 (base : List ℕ) (hb : base.length = 57) (s : Settings) :
    (writeAll base (settingsWrites s)).getD 30 0 = to_ic s.max_battery_temp_compensation_limit := by
  unfold writeAll settingsWrites
  simp only [List.foldl_cons, List.foldl_nil]
  norm_num [SETTINGS_BASE]
  simp [getD_set_ne, getD_set_self, List.length_set, hb]

lemma waGetD_31 (base : List ℕ) (hb : base.length = 57) (s : Settings) :
    (writeAll base (settingsWrites s)).getD 31 0 = to_ic s.min_battery_temp_compensation_limit := by
  unfold writeAll settingsWrites
  simp only [List.foldl_cons, List.foldl_nil]
  norm_num [SETTINGS_BASE]
  simp [getD_set_ne, getD_set_self, List.length_set, hb]

lemma waGetD_34 (base : List ℕ) (hb : base.length = 57) (s : Settings) :
    (writeAll base (settingsWrites s)).getD 34 0 = to_v s.load_low_voltage_disconnect := by
  unfold writeAll settingsWrites
  simp only [List.foldl_cons, List.foldl_nil]
  norm_num [SETTINGS_BASE]
  simp [getD_set_ne, getD_set_self, List.length_set, hb]

lemma waGetD_35 (base : List ℕ) (hb : base.length = 57) (s : Settings) :
    (writeAll base (settingsWrites s)).getD 35 0 = to_v s.load_low_voltage_reconnect := by
  unfold writeAll settingsWrites
  simp only [List.foldl_cons, List.foldl_nil]
  norm_num [SETTINGS_BASE]
  simp [getD_set_ne, getD_set_self, List.length_set, hb]

lemma waGetD_36 (base : List ℕ) (hb : base.length = 57) (s : Settings) :
    (writeAll base (settingsWrites s)).getD 36 0 = to_v s.load_high_voltage_disconnect := by
  unfold writeAll settingsWrites
  simp only [List.foldl_cons, List.foldl_nil]
  norm_num [SETTINGS_BASE]
  simp [getD_set_ne, getD_set_self, List.length_set, hb]

lemma waGetD_37 (base : List ℕ) (hb : base.length = 57) (s : Settings) :
    (writeAll base (settingsWrites s)).getD 37 0 = to_v s.load_high_voltage_reconnect := by
  unfold writeAll settingsWrites
  simp only [List.foldl_cons, List.foldl_nil]
  norm_num [SETTINGS_BASE]
  simp [getD_set_ne, getD_set_self, List.length_set, hb]

lemma waGetD_38 (base : List ℕ) (hb : base.length = 57) (s : Settings) :
    (writeAll base (settingsWrites s)).getD 38 0 = to_om s.lvd_load_current_compensation := by
  unfold writeAll settingsWrites
  simp only [List.foldl_cons, List.foldl_nil]
  norm_num [SETTINGS_BASE]
  simp [getD_set_ne, getD_set_self, List.length_set, hb]

lemma waGetD_39 (base : List ℕ) (hb : base.length = 57) (s : Settings) :
    (writeAll base (settingsWrites s)).getD 39 0 = to_mn s.lvd_warning_timeout := by
  unfold writeAll settingsWrites
  simp only [List.foldl_cons, List.foldl_nil]
  norm_num [SETTINGS_BASE]
  simp [getD_set_ne, getD_set_self, List.length_set, hb]

lemma waGetD_48 (base : List ℕ) (hb : base.length = 57) (s : Settings) :
    (writeAll base (settingsWrites s)).getD 48 0 = to_v s.led_green_to_green_and_yellow_limit := by
  unfold writeAll settingsWrites
  simp only [List.foldl_cons, List.foldl_nil]
  norm_num [SETTINGS_BASE]
  simp [getD_set_ne, getD_set_self, List.length_set, hb]

lemma waGetD_49 (base : List ℕ) (hb : base.length = 57) (s : Settings) :
    (writeAll base (settingsWrites s)).getD 49 0 = to_v s.led_green_and_yellow_to_yellow_limit := by
  unfold writeAll settingsWrites
  simp only [List.foldl_cons, List.foldl_nil]
  norm_num [SETTINGS_BASE]
  simp [getD_set_ne, getD_set_self, List.length_set, hb]

lemma waGetD_50 (base : List ℕ) (hb : base.length = 57) (s : Settings) :
    (writeAll base (settingsWrites s)).getD 50 0 = to_v s.led_yellow_to_yellow_and_red_limit := by
  unfold writeAll settingsWrites
  simp only [List.foldl_cons, List.foldl_nil]
  norm_num [SETTINGS_BASE]
  simp [getD_set_ne, getD_set_self, List.length_set, hb]

lemma waGetD_51 (base : List ℕ) (hb : base.length = 57) (s : Settings) :
    (writeAll base (settingsWrites s)).getD 51 0 = to_v s.led_yellow_and_red_to_red_flashing_limit := by
  unfold writeAll settingsWrites
  simp only [List.foldl_cons, List.foldl_nil]
  norm_num [SETTINGS_BASE]
  simp [getD_set_ne, getD_set_self, List.length_set, hb]

lemma waGetD_52 (base : List ℕ) (hb : base.length = 57) (s : Settings) :
    (writeAll base (settingsWrites s)).getD 52 0 = s.modbus_id := by
  unfold writeAll settingsWrites
  simp only [List.foldl_cons, List.foldl_nil]
  norm_num [SETTINGS_BASE]
  simp [getD_set_ne, getD_set_self, List.length_set, hb]

lemma waGetD_53 (base : List ℕ) (hb : base.length = 57) (s : Settings) :
    (writeAll base (settingsWrites s)).getD 53 0 = s.meterbus_id := by
  unfold writeAll settingsWrites
  simp only [List.foldl_cons, List.foldl_nil]
  norm_num [SETTINGS_BASE]
  simp [getD_set_ne, getD_set_self, List.length_set, hb]

lemma waGetD_54 (base : List ℕ) (hb : base.length = 57) (s : Settings) :
    (writeAll base (settingsWrites s)).getD 54 0 = to_v s.mppt_fixed_vmp := by
  unfold writeAll settingsWrites
  simp only [List.foldl_cons, List.foldl_nil]
  norm_num [SETTINGS_BASE]
  simp [getD_set_ne, getD_set_self, List.length_set, hb]

lemma waGetD_55 (base : List ℕ) (hb : base.length = 57) (s : Settings) :
    (writeAll base (settingsWrites s)).getD 55 0 = encF32toBits s.mppt_fixed_vmp_percent := by
  unfold writeAll settingsWrites
  simp only [List.foldl_cons, List.foldl_nil]
  norm_num [SETTINGS_BASE]
  simp [getD_set_ne, getD_set_self, List.length_set, hb]

lemma waGetD_56 (base : List ℕ) (hb : base.length = 57) (s : Settings) :
    (writeAll base (settingsWrites s)).getD 56 0 = to_a s.charge_current_limit := by
  unfold writeAll settingsWrites
  simp only [List.foldl_cons, List.foldl_nil]
  norm_num [SETTINGS_BASE]
  simp [getD_set_ne, getD_set_self, List.length_set, hb]

lemma gf32_to_v {x : RFloat} (h : F16Exact x) : gf32 (to_v x) = x := gf32_encF32 h

lemma gf32_to_a {x : RFloat} (h : F16Exact x) : gf32 (to_a x) = x := gf32_encF32 h

lemma gf32_to_om {x : RFloat} (h : F16Exact x) : gf32 (to_om x) = x := gf32_encF32 h

/-- Claim C6: for every settings field, decoding the encoded form of a
value reproduces the value up to the precision loss intrinsic to that
field's encoding.  First conjunct: writing every field's encoded
register into a 57-register settings block and decoding it with
`read_settings` reproduces the candidate exactly, whenever each
binary16 field holds an exactly representable value, each
integer-duration field an integer in `u16` range, each signed
temperature field an integer in `i16` range, and each bus address a
`u8`.  Second conjunct: encoding any finite value inside the binary16
finite range produces a register whose decoded value is exactly
representable, so the only loss is the binary16 rounding itself. -/
theorem c6_settings_codec_roundtrip :
    (∀ (s : Settings) (base : List ℕ), base.length = 57 → GoodSettings s →
      decodeSettings (writeAll base (settingsWrites s)) = some s) ∧
    (∀ q : ℚ, -65520 < q → q < 65520 → F16Exact (gf32 (encodeF16 q))) := by
  constructor
  · intro s base hb hs
    have hcond : (writeAll base (settingsWrites s)).length =
        SETTINGS_END - SETTINGS_BASE + 1 := by
      rw [length_writeAll, hb]
      rfl
    unfold decodeSettings
    rw [if_pos hcond]
    norm_num [SETTINGS_BASE, SETTINGS_END]
    simp only [← List.getD_eq_getElem?_getD]
    rw [waGetD_0 base hb s, waGetD_1 base hb s, waGetD_2 base hb s,
      waGetD_3 base hb s, waGetD_4 base hb s, waGetD_5 base hb s,
      waGetD_6 base hb s, waGetD_7 base hb s, waGetD_8 base hb s,
      waGetD_9 base hb s, waGetD_10 base hb s, waGetD_13 base hb s,
      waGetD_16 base hb s, waGetD_19 base hb s, waGetD_26 base hb s,
      waGetD_27 base hb s, waGetD_28 base hb s, waGetD_29 base hb s,
      waGetD_30 base hb s, waGetD_31 base hb s, waGetD_34 base hb s,
      waGetD_35 base hb s, waGetD_36 base hb s, waGetD_37 base hb s,
      waGetD_38 base hb s, waGetD_39 base hb s, waGetD_48 base hb s,
      waGetD_49 base hb s, waGetD_50 base hb s, waGetD_51 base hb s,
      waGetD_52 base hb s, waGetD_53 base hb s, waGetD_54 base hb s,
      waGetD_55 base hb s, waGetD_56 base hb s]
    rw [gf32_to_v hs.h_regulation_voltage,
      gf32_to_v hs.h_float_voltage,
      to_sec_roundtrip hs.h_time_before_float,
      to_sec_roundtrip hs.h_time_before_float_low_battery,
      gf32_to_v hs.h_float_low_battery_voltage_trigger,
      gf32_to_v hs.h_float_cancel_voltage,
      to_sec_roundtrip hs.h_exit_float_time,
      gf32_to_v hs.h_equalize_voltage,
      to_dy_roundtrip hs.h_days_between_equalize_cycles,
      to_sec_roundtrip hs.h_equalize_time_limit_above_regulation_voltage,
      to_sec_roundtrip hs.h_equalize_time_limit_at_regulation_voltage,
      decide_ite_one,
      gf32_to_v hs.h_reference_charge_voltage_limit,
      gf32_to_a hs.h_battery_charge_current_limit,
      gf32_to_v hs.h_temperature_compensation_coefficent,
      gf32_to_v hs.h_high_voltage_disconnect,
      gf32_to_v hs.h_high_voltage_reconnect,
      gf32_to_v hs.h_maximum_charge_voltage_reference,
      ic_to_ic hs.h_max_battery_temp_compensation_limit,
      ic_to_ic hs.h_min_battery_temp_compensation_limit,
      gf32_to_v hs.h_load_low_voltage_disconnect,
      gf32_to_v hs.h_load_low_voltage_reconnect,
      gf32_to_v hs.h_load_high_voltage_disconnect,
      gf32_to_v hs.h_load_high_voltage_reconnect,
      gf32_to_om hs.h_lvd_load_current_compensation,
      to_mn_roundtrip hs.h_lvd_warning_timeout,
      gf32_to_v hs.h_led_green_to_green_and_yellow_limit,
      gf32_to_v hs.h_led_green_and_yellow_to_yellow_limit,
      gf32_to_v hs.h_led_yellow_to_yellow_and_red_limit,
      gf32_to_v hs.h_led_yellow_and_red_to_red_flashing_limit,
      Nat.mod_eq_of_lt hs.h_modbus_id,
      Nat.mod_eq_of_lt hs.h_meterbus_id,
      gf32_to_v hs.h_mppt_fixed_vmp,
      gf32_encF32 hs.h_mppt_fixed_vmp_percent,
      gf32_to_a hs.h_charge_current_limit]
  · intro q h1 h2
    exact F16Exact_gf32_encodeF16 h1 h2

lemma f16exact_one : F16Exact (.fin 1) :=
  ⟨0x3C00, by norm_num, Or.inl (by
    norm_num [f16Val, f16Exp, f16Man, pow2]
    rw [show Int.toNat 10 = 10 from rfl]
    norm_num)⟩

lemma f16exact_half : F16Exact (.fin (1/2)) :=
  ⟨0x3800, by norm_num, Or.inl (by
    norm_num [f16Val, f16Exp, f16Man, pow2]
    rw [show Int.toNat 11 = 11 from rfl]
    norm_num)⟩

lemma u16val_lit {n : ℕ} (h : n < 65536) : U16Val (.fin (n : ℚ)) := ⟨n, h, rfl⟩

lemma goodSettings_sRound : GoodSettings sRound where
  h_regulation_voltage := f16exact_one
  h_float_voltage := f16exact_one
  h_time_before_float := u16val_lit (by norm_num)
  h_time_before_float_low_battery := by
    have := u16val_lit (n := 65535) (by norm_num)
    simpa using this
  h_float_low_battery_voltage_trigger := f16exact_one
  h_float_cancel_voltage := f16exact_one
  h_exit_float_time := u16val_lit (by norm_num)
  h_equalize_voltage := f16exact_one
  h_days_between_equalize_cycles := by
    have := u16val_lit (n := 255) (by norm_num)
    simpa using this
  h_equalize_time_limit_above_regulation_voltage := u16val_lit (by norm_num)
  h_equalize_time_limit_at_regulation_voltage := u16val_lit (by norm_num)
  h_reference_charge_voltage_limit := f16exact_one
  h_battery_charge_current_limit := f16exact_one
  h_temperature_compensation_coefficent := f16exact_one
  h_high_voltage_disconnect := f16exact_one
  h_high_voltage_reconnect := f16exact_one
  h_maximum_charge_voltage_reference := f16exact_one
  h_max_battery_temp_compensation_limit :=
    ⟨-256, by norm_num, by norm_num, by norm_num [sRound]⟩
  h_min_battery_temp_compensation_limit :=
    ⟨127, by norm_num, by norm_num, by norm_num [sRound]⟩
  h_load_low_voltage_disconnect := f16exact_one
  h_load_low_voltage_reconnect := f16exact_one
  h_load_high_voltage_disconnect := f16exact_one
  h_load_high_voltage_reconnect := f16exact_one
  h_lvd_load_current_compensation := f16exact_one
  h_lvd_warning_timeout := u16val_lit (by norm_num)
  h_led_green_to_green_and_yellow_limit := f16exact_one
  h_led_green_and_yellow_to_yellow_limit := f16exact_one
  h_led_yellow_to_yellow_and_red_limit := f16exact_one
  h_led_yellow_and_red_to_red_flashing_limit := f16exact_one
  h_modbus_id := by norm_num [sRound]
  h_meterbus_id := by norm_num [sRound]
  h_mppt_fixed_vmp := f16exact_one
  h_mppt_fixed_vmp_percent := f16exact_half
  h_charge_current_limit := f16exact_one

/-- Witness for C6: the round trip instantiated at a concrete
candidate and a concrete base block, and the closure conjunct at a
concrete non-representable rational. -/
theorem c6_settings_codec_roundtrip_witness :
    decodeSettings (writeAll (List.replicate 57 0) (settingsWrites sRound)) = some sRound ∧
    F16Exact (gf32 (encodeF16 (1/3))) := by
  constructor
  · exact c6_settings_codec_roundtrip.1 sRound (List.replicate 57 0)
      (by simp) goodSettings_sRound
  · exact c6_settings_codec_roundtrip.2 (1/3) (by norm_num) (by norm_num)

lemma checks_length : checks.length = 34 := rfl

lemma checks_lo_le_hi : ∀ i, i < checks.length → (checkAt i).lo ≤ (checkAt i).hi := by
  intro i hi
  rw [checks_length] at hi
  interval_cases i <;> norm_num [checkAt, checks]

lemma checkFails_at_lo {c : Check} {s : Settings} (hget : c.get s = .fin c.lo)
    (hlh : c.lo ≤ c.hi) : checkFails c s = false := by
  unfold checkFails rgtF
  rw [hget]
  simp only [rltF, Bool.or_eq_false_iff, decide_eq_false_iff_not]
  exact ⟨lt_irrefl _, not_lt.mpr hlh⟩

lemma checkFails_at_hi {c : Check} {s : Settings} (hget : c.get s = .fin c.hi)
    (hlh : c.lo ≤ c.hi) : checkFails c s = false := by
  unfold checkFails rgtF
  rw [hget]
  simp only [rltF, Bool.or_eq_false_iff, decide_eq_false_iff_not]
  exact ⟨not_lt.mpr hlh, lt_irrefl _⟩

/-- Claim C7: a field value exactly at its interval's minimum or
maximum passes that field's check, a value outside either bound makes
`validate` return an error identifying the first failing check in
declaration order together with its bounds (the candidate is passed by
value and never mutated: `validate` is a pure function here). -/
theorem c7_validate_boundary_and_first_error :
    (∀ i, i < checks.length → ∀ s : Settings,
      (checkAt i).get s = .fin (checkAt i).lo → checkFails (checkAt i) s = false) ∧
    (∀ i, i < checks.length → ∀ s : Settings,
      (checkAt i).get s = .fin (checkAt i).hi → checkFails (checkAt i) s = false) ∧
    (∀ (s : Settings) (i : ℕ), i < checks.length →
      (∀ j, j < i → checkFails (checkAt j) s = false) →
      checkFails (checkAt i) s = true →
      Settings.validate s = .error ((checkAt i).name, (checkAt i).lo, (checkAt i).hi)) := by
  refine ⟨?_, ?_, ?_⟩
  · intro i hi s hget
    exact checkFails_at_lo hget (checks_lo_le_hi i hi)
  · intro i hi s hget
    exact checkFails_at_hi hget (checks_lo_le_hi i hi)
  · intro s i hi hprev hfail
    unfold Settings.validate
    exact validateL_first ⟨"", fun _ => .nan, 0, 0⟩ checks s i hi hprev hfail

/-- Witness for C7: the first check accepts `sZero`, whose regulation
voltage sits exactly at the lower bound, and an 18 V regulation
voltage (out of range) makes `validate` fail on that first field with
its bounds. -/
theorem c7_validate_witness :
    checkFails (checkAt 0) sZero = false ∧
    Settings.validate sBadReg = .error ("regulation_voltage", 0, 35/2) := by
  constructor
  · exact c7_validate_boundary_and_first_error.1 0 (by norm_num [checks_length]) sZero
      (by norm_num [checkAt, checks, sZero])
  · exact c7_validate_boundary_and_first_error.2.2 sBadReg 0 (by norm_num [checks_length])
      (by omega)
      (by norm_num [checkAt, checks, checkFails, rltF, rgtF, sBadReg, sZero])

/-- Claim C8: when any validation check rejects the candidate,
`write_settings` returns the validation error having issued no
transport operation at all: its trace is empty, so zero register
writes and zero register reads are performed. -/
theorem c8_validation_failure_no_transport :
    ∀ (s : Settings) (cur : List ℕ) (i : ℕ), i < checks.length →
      checkFails (checkAt i) s = true →
      ∃ e, writeSettingsRun s cur = ([], .valErr e) := by
  intro s cur i hi hfail
  have hmem : checkAt i ∈ checks := by
    unfold checkAt
    rw [List.getD_eq_getElem _ _ hi]
    exact List.getElem_mem hi
  obtain ⟨e, he⟩ := validateL_isError checks s ⟨checkAt i, hmem, hfail⟩
  refine ⟨e, ?_⟩
  unfold writeSettingsRun Settings.validate
  rw [he]

/-- Witness for C8: a modbus address of 0 (below the legal minimum 1)
makes `write_settings` return the validation error with an empty
transport trace. -/
theorem c8_validation_failure_witness :
    ∃ e, writeSettingsRun sBadModbus (List.replicate 56 0) = ([], .valErr e) :=
  c8_validation_failure_no_transport sBadModbus (List.replicate 56 0) 29
    (by norm_num [checks_length])
    (by norm_num [checkAt, checks, checkFails, rltF, rgtF, sBadModbus, sZero])

lemma to_ic_ic {u : ℕ} (hu : u < 65536) : to_ic (ic u) = u := by
  have hb : -32768 ≤ i16val u ∧ i16val u < 32768 := by
    unfold i16val
    split <;> omega
  unfold to_ic ic
  rw [show castSat (-32768) 32767 (.fin ((i16val u : ℤ) : ℚ)) =
      max (-32768) (min 32767 (truncQ ((i16val u : ℤ) : ℚ))) from rfl, truncQ_intCast,
    show max (-32768 : ℤ) (min 32767 (i16val u)) = i16val u from by omega]
  unfold i16val
  split <;> omega

/-- Claim C9: the `From<u16>` decoders for `ChargeState` and
`LoadState` are total: each known code maps to its named variant, and
every other `u16` code maps to the data-carrying fallback variant
holding that exact code. -/
theorem c9_state_decoders_total :
    (ChargeState.ofU16 0 = .Start ∧ ChargeState.ofU16 1 = .NightCheck ∧
     ChargeState.ofU16 2 = .Disconnect ∧ ChargeState.ofU16 3 = .Night ∧
     ChargeState.ofU16 4 = .Fault ∧ ChargeState.ofU16 5 = .BulkMPPT ∧
     ChargeState.ofU16 6 = .Absorption ∧ ChargeState.ofU16 7 = .Float ∧
     ChargeState.ofU16 8 = .Equalize ∧ ChargeState.ofU16 9 = .Slave ∧
     ChargeState.ofU16 10 = .Fixed) ∧
    (∀ i, 10 < i → i < 65536 → ChargeState.ofU16 i = .UnknownState i) ∧
    (LoadState.ofU16 0 = .Start ∧ LoadState.ofU16 1 = .Normal ∧
     LoadState.ofU16 2 = .LVDWarning ∧ LoadState.ofU16 3 = .LVD ∧
     LoadState.ofU16 4 = .Fault ∧ LoadState.ofU16 5 = .Disconnect ∧
     LoadState.ofU16 6 = .NormalOff ∧ LoadState.ofU16 7 = .Override ∧
     LoadState.ofU16 8 = .NotUsed) ∧
    (∀ i, 8 < i → i < 65536 → LoadState.ofU16 i = .Unknown i) := by
  refine ⟨by decide, ?_, by decide, ?_⟩
  · intro i h1 h2
    obtain ⟨n, rfl⟩ : ∃ n, i = n + 11 := ⟨i - 11, by omega⟩
    rfl
  · intro i h1 h2
    obtain ⟨n, rfl⟩ : ∃ n, i = n + 9 := ⟨i - 9, by omega⟩
    rfl

/-- Witness for C9: the first unrecognized codes map to the fallback
variants carrying the exact code. -/
theorem c9_state_decoders_witness :
    ChargeState.ofU16 11 = .UnknownState 11 ∧ LoadState.ofU16 9 = .Unknown 9 :=
  ⟨c9_state_decoders_total.2.1 11 (by norm_num) (by norm_num),
   c9_state_decoders_total.2.2.2 9 (by norm_num) (by norm_num)⟩

/-- Claim C10: the signed temperature codec reinterprets the raw
16-bit register as a two's complement `i16`: `0xFF00` decodes to
-256 degrees Celsius, not 65280, encoding -256 gives back the bit
pattern `0xFF00`, and the codec round-trips every 16-bit register
value exactly. -/
theorem c10_signed_temperature_codec :
    ic 0xFF00 = .fin (-256) ∧ ¬ ic 0xFF00 = .fin 65280 ∧
    to_ic (.fin (-256)) = 0xFF00 ∧ ∀ u, u < 65536 → to_ic (ic u) = u := by
  have h1 : ic 0xFF00 = .fin (-256) := by
    unfold ic i16val
    norm_num
  refine ⟨h1, ?_, ?_, fun u hu => to_ic_ic hu⟩
  · rw [h1]
    simp only [RFloat.fin.injEq]
    norm_num
  · rw [show RFloat.fin (-256 : ℚ) = ic 0xFF00 from h1.symm]
    exact to_ic_ic (by norm_num)

/-- Witness for C10: the quantified round-trip conjunct instantiated
at the claim's own register value. -/
theorem c10_signed_temperature_witness : to_ic (ic 0xFF00) = 0xFF00 :=
  c10_signed_temperature_codec.2.2.2 0xFF00 (by norm_num)

/-- Counterexample for C5: `LoadFaults` is a 16-bit register mask, but
bit 8 (`0x0100`), which has no named meaning, is dropped by
`from_bits_truncate` rather than preserved. -/
theorem c5_loadfaults_bit8_dropped :
    loadFaultsFromBitsTruncate 0x0100 = 0 ∧ (0x0100 : ℕ) ≠ 0 := by
  constructor
  · decide
  · decide

/-- Claim C5 (amended): decoding a raw value with
`from_bits_truncate` and re-extracting the bits preserves exactly the
bits inside each mask's defined-flag union and clears the rest: all 16
bits for `ArrayFaults`, the low 8 bits for `LoadFaults`, and the low
27 bits for `Alarms`; unrecognized bits inside the defined union are
kept, bits outside it (LoadFaults bits 8-15, Alarms bits 27-31) are
dropped, and decoding never fails. -/
theorem c5_bitmask_truncate_to_defined_bits :
    (∀ raw : ℕ, arrayFaultsFromBitsTruncate raw = raw % 2 ^ 16) ∧
    (∀ raw : ℕ, loadFaultsFromBitsTruncate raw = raw % 2 ^ 8) ∧
    (∀ raw : ℕ, alarmsFromBitsTruncate raw = raw % 2 ^ 27) := by
  refine ⟨fun raw => ?_, fun raw => ?_, fun raw => ?_⟩
  · unfold arrayFaultsFromBitsTruncate
    rw [show flagsUnion arrayFaultsFlags = 65535 from by decide]
    have := Nat.and_pow_two_sub_one_eq_mod raw 16
    simpa using this
  · unfold loadFaultsFromBitsTruncate
    rw [show flagsUnion loadFaultsFlags = 255 from by decide]
    have := Nat.and_pow_two_sub_one_eq_mod raw 8
    simpa using this
  · unfold alarmsFromBitsTruncate
    rw [show flagsUnion alarmsFlags = 134217727 from by decide]
    have := Nat.and_pow_two_sub_one_eq_mod raw 27
    simpa using this

lemma validateL_ok : ∀ (L : List Check) (s : Settings),
    (∀ c ∈ L, checkFails c s = false) → validateL L s = .ok () := by
  intro L
  induction L with
  | nil => intro s _; rfl
  | cons c rest ih =>
    intro s h
    unfold validateL
    rw [if_neg (by simp [h c (by simp)])]
    exact ih s (fun c0 hc0 => h c0 (by simp [hc0]))

set_option maxRecDepth 8000 in
lemma validate_sZero : Settings.validate sZero = .ok () := by
  apply validateL_ok
  intro c hc
  fin_cases hc <;> norm_num [checkFails, rltF, rgtF, rscale, sZero]

lemma encodeCore_zero : encodeCore 0 = 0 := by
  simp only [encodeCore]
  rw [if_pos (le_refl (0 : ℚ))]

lemma encBits_zero : encF32toBits (.fin 0) = 0 := by
  rw [show encF32toBits (.fin 0) = encodeF16 0 from rfl]
  unfold encodeF16
  rw [if_neg (lt_irrefl (0 : ℚ))]
  exact encodeCore_zero

lemma to_v_zero : to_v (.fin 0) = 0 := encBits_zero

lemma to_a_zero : to_a (.fin 0) = 0 := encBits_zero

lemma to_om_zero : to_om (.fin 0) = 0 := encBits_zero

lemma to_sec_zero : to_sec (.fin 0) = 0 := by
  norm_num [to_sec, castSat, truncQ]

lemma to_dy_zero : to_dy (.fin 0) = 0 := to_sec_zero

lemma to_mn_zero : to_mn (.fin 0) = 0 := to_sec_zero

lemma to_ic_zero : to_ic (.fin 0) = 0 := by
  norm_num [to_ic, castSat, truncQ]

lemma writes_sZero : settingsWrites sZero =
    [(0xE000, 0), (0xE001, 0), (0xE002, 0), (0xE003, 0), (0xE004, 0),
     (0xE005, 0), (0xE006, 0), (0xE007, 0), (0xE008, 0), (0xE009, 0),
     (0xE00A, 0), (0xE00D, 0), (0xE010, 0), (0xE013, 0), (0xE01A, 0),
     (0xE01B, 0), (0xE01C, 0), (0xE01D, 0), (0xE01E, 0), (0xE01F, 0),
     (0xE022, 0), (0xE023, 0), (0xE024, 0), (0xE025, 0), (0xE026, 0),
     (0xE027, 0), (0xE030, 0), (0xE031, 0), (0xE032, 0), (0xE033, 0),
     (0xE034, 1), (0xE035, 1), (0xE036, 0), (0xE037, 0), (0xE038, 0)] := by
  simp [settingsWrites, sZero, to_v_zero, to_a_zero, to_om_zero, to_sec_zero,
    to_dy_zero, to_mn_zero, to_ic_zero, encBits_zero]

/-- Claim C1 (code bug): `write_settings` does not re-read the full
57-register settings block 0xE000-0xE038.  It computes the read length
as `SETTINGS_END - SETTINGS_BASE` without the `+ 1` that
`read_settings` uses, so it requests and accepts only 56 registers: a
transport response holding the genuine full block (57 registers, as
`settingsBlockLen` records) is rejected with a size error, and the
issued read asks for 56 registers. -/
theorem c1_write_settings_reads_56_not_57 :
    settingsBlockLen = 57 ∧
    writeSettingsRun sZero (List.replicate 57 0) =
      ([.readRegs 0xE000 56], .sizeErr 57 56) := by
  constructor
  · rfl
  · unfold writeSettingsRun
    rw [validate_sZero]
    decide

/-- Claim C2 (code bug): for a current block of exactly the length
`write_settings` itself accepts (56 registers), the per-field loop
still indexes `cur[0xE038 - 0xE000] = cur[56]`, one past the end of
the block, while processing `charge_current_limit`: the run ends in an
out-of-bounds panic rather than completing, so not every evaluated
index is in bounds. -/
theorem c2_write_settings_index_out_of_bounds :
    (List.replicate 56 0).length = SETTINGS_END - SETTINGS_BASE ∧
    (writeSettingsRun sZero (List.replicate 56 0)).2 = .oob 0xE038 := by
  constructor
  · decide
  · unfold writeSettingsRun
    rw [validate_sZero, writes_sZero]
    decide

/-- Claim C3 (code bug): with a current block that agrees with the
candidate's encoded form at every in-range offset, the diff loop
correctly issues zero register writes for the first 34 fields, but
then panics out of bounds at the final field (0xE038) instead of
completing with zero writes: the trace holds only the initial read and
the outcome is the out-of-bounds panic. -/
theorem c3_diff_before_write_panics_at_last_field :
    writeSettingsRun sZero curMatch = ([.readRegs 0xE000 56], .oob 0xE038) := by
  unfold writeSettingsRun
  rw [validate_sZero, writes_sZero]
  decide

/-- Claim C4 (code bug): `0x7E00` is a binary16 NaN pattern, yet the
RTS temperature of a successfully read 81-register telemetry block
holding it at offset 0x1D decodes to `Some(0 °C)`, not to `None`:
`gf32` maps NaN to `0.0` before the `is_nan` test in `stats`, so the
`None` branch is unreachable. -/
theorem c4_rts_nan_decodes_to_zero_not_none :
    decodeF16 0x7E00 = .nan ∧
    statsRtsDecode rawNaNBlock = some (some (.fin 0)) := by
  constructor
  · decide
  · decide
